import Mathlib

/-!
Verification of the chat application's real-time backend: a shallow embedding
of the room session actor implemented by `WebSocketHibernationServer` in
src/worker/index.ts, together with the token issuance/verification functions of
src/worker/auth.ts. Handlers are translated statement by statement from the
TypeScript source; external library calls (sanitize-html, btoa/atob,
JSON.stringify/parse of token payloads, HMAC signing) enter the model as
function parameters, and JavaScript `undefined` (together with the `NaN` that
arithmetic on it produces, which behaves identically in every comparison the
worker performs) is modeled as `Option.none`.
-/

namespace Chat

/-- A chat message as built by `webSocketMessage` (interface `Message` of the
worker): text, author, id and creation timestamp (`Date.now()`). -/
structure Msg where
  message : String
  user : String
  id : String
  timestamp : Int
  deriving DecidableEq

/-- One entry of `userMessageCounts`: the per-identity fixed-window rate state
`{ count, lastReset }`. -/
structure RateEntry where
  count : Nat
  lastReset : Int
  deriving DecidableEq

/-- The per-socket fields of `ExtendedWebSocket` that the worker reads or
writes (`clientIP`, `lastPing`, `retryCount`), plus the map key `wsId`
(`ws.toString()`).  `none` stands for JavaScript `undefined` or `NaN`.  The
worker never initializes these three fields when a socket is accepted;
`clientIP` is only ever assigned in the auth branch (to `data.userId`) and
`lastPing` only in the inbound-ping branch.  `acceptIP` is specification-only
ghost data recording the source IP seen at accept time — the source does NOT
store it on the socket, and no transition function below reads it; it exists
solely so that theorems can speak about "live connections from an IP".  The
declared-but-never-used `isAlive` field is omitted. -/
structure Conn where
  wsId : String
  acceptIP : String
  clientIP : Option String := none
  lastPing : Option Int := none
  retryCount : Option Nat := none
  deriving DecidableEq

/-- Server-to-client wire frames (spec section 6).  The constructors cover every
frame this worker emits, plus `messageHistory`, which the wire protocol defines
(`message_history`) but which `WebSocketHibernationServer` never sends. -/
inductive Frame where
  | connectionStatus (status msg : String) (connectionCount : Nat)
  | connectionCount (count : Nat)
  | messageBatch (msgs : List Msg)
  | messageHistory (msgs : List Msg)
  | authSuccess (username : String)
  | error (msg : String)
  | pong
  | ping
  | typing (user : String)
  deriving DecidableEq

/-- An observable effect of a handler: sending a frame to one socket, or
calling `close` on one socket. -/
inductive Action where
  | send (target : String) (frame : Frame)
  | closeSocket (target : String) (code : Nat) (reason : String)
  deriving DecidableEq

/-- An inbound WebSocket frame as `webSocketMessage` sees it: a binary frame
(`typeof message !== 'string'`), a text frame `JSON.parse` throws on
(`malformed`), or a parsed object.  For parsed objects the constructor mirrors
the `data.type` dispatch of the source; `other` is a parsed object whose type
matches none of the handled cases.  For `message` frames the four optional
fields mirror `data.content`, `data.message`, `data.username`, `data.user`. -/
inductive InMsg where
  | binary
  | malformed
  | auth (authToken userId username : String)
  | ping
  | typing (user : String)
  | message (contentField msgField usernameField userField : Option String)
  | other
  deriving DecidableEq

/-- The result of the authentication branch's token check, mirroring the
non-null result of `Auth.verifyToken`. -/
structure AuthResult where
  userId : String
  username : String
  deriving DecidableEq

/-- The mutable per-room state of `WebSocketHibernationServer`.  `storage` is
the durable-storage value stored under the `'messageHistory'` key
(`this.state.storage`), distinguished from the in-memory `messageHistory`
cache; `batchTimeout` records whether the debounce timer is armed, and
`healthCheckInterval` whether the recurring health check has been started.
JavaScript `Map`s are modeled as insertion-ordered association lists.  The
Drizzle database (users and rooms tables) is an external collaborator and is
not part of this state. -/
structure ServerState where
  messageHistory : List Msg := []
  messageQueue : List Msg := []
  batchTimeout : Bool := false
  userMessageCounts : List (String × RateEntry) := []
  ipConnections : List (String × Nat) := []
  clients : List Conn := []
  typingUsers : List (String × Int) := []
  healthCheckInterval : Bool := false
  storage : List Msg := []
  deriving DecidableEq

-- Constants of src/worker/index.ts lines 17-23.  MAX_HISTORY is declared by
-- the source but, like the history snapshot it was presumably meant for, is
-- never used by any code path.
def MAX_HISTORY : Nat := 100
def MAX_MESSAGE_LENGTH : Nat := 1000
def MAX_USERNAME_LENGTH : Nat := 30
def MAX_CONNECTIONS_PER_IP : Nat := 5
def PING_INTERVAL : Int := 30000
def PONG_TIMEOUT : Int := 10000
def MAX_RETRY_ATTEMPTS : Nat := 3

/-- JavaScript `Map.prototype.get`, on an insertion-ordered association list. -/
def mapGet {α : Type} (m : List (String × α)) (k : String) : Option α :=
  (m.find? (fun p => p.1 == k)).map (fun p => p.2)

/-- JavaScript `Map.prototype.set`: updates the existing entry in place
(keeping insertion order) or appends a new one. -/
def mapSet {α : Type} (m : List (String × α)) (k : String) (v : α) :
    List (String × α) :=
  if m.any (fun p => p.1 == k) then
    m.map (fun p => if p.1 == k then (k, v) else p)
  else m ++ [(k, v)]

/-- JavaScript `Map.prototype.delete`. -/
def mapDelete {α : Type} (m : List (String × α)) (k : String) :
    List (String × α) :=
  m.filter (fun p => p.1 != k)

/-- `Map.set` for the `clients` map, keyed by `wsId`. -/
def clientsSet (cs : List Conn) (c : Conn) : List Conn :=
  if cs.any (fun x => x.wsId == c.wsId) then
    cs.map (fun x => if x.wsId == c.wsId then c else x)
  else cs ++ [c]

/-- `Map.delete` for the `clients` map. -/
def clientsDelete (cs : List Conn) (wsId : String) : List Conn :=
  cs.filter (fun x => x.wsId != wsId)

/-- Mutation of a field of the socket object held in the `clients` map
(assignments like `(ws as ExtendedWebSocket).lastPing = ...`). -/
def clientsUpdate (cs : List Conn) (wsId : String) (f : Conn → Conn) :
    List Conn :=
  cs.map (fun x => if x.wsId == wsId then f x else x)

/-- JavaScript `String.prototype.trim` (the ECMAScript whitespace set restricted
to the ASCII characters relevant here). -/
def isJsWhitespace (ch : Char) : Bool :=
  ch = ' ' ∨ ch = '\t' ∨ ch = '\n' ∨ ch = '\r' ∨ ch = '\x0b' ∨ ch = '\x0c'

def jsTrim (s : String) : String :=
  String.mk (((s.data.dropWhile isJsWhitespace).reverse.dropWhile
    isJsWhitespace).reverse)

/-- `sanitizeInput` of the worker: `sanitizeHtml(input, sanitizeOptions).trim()`.
The sanitize-html library is external to the repository and enters the model as
the parameter `lib`; the trailing trim is repository code. -/
def sanitizeInput (lib : String → String) (input : String) : String :=
  jsTrim (lib input)

/-- The `{ valid, error? }` result of `validateMessage`. -/
inductive ValidationResult where
  | ok
  | invalid (error : String)
  deriving DecidableEq

/-- `validateMessage` of the worker.  String falsiness (`!message`) means the
empty string here, since both arguments are strings; `.length` is modeled with
Lean's code-point length (the inputs of interest contain no surrogate pairs).
The try/catch around the body only catches exceptions of the external
sanitizer, which is modeled as a total function. -/
def validateMessage (lib : String → String) (message user : String) :
    ValidationResult :=
  if message = "" ∨ user = "" then
    .invalid "Message and user are required"
  else if message.length > MAX_MESSAGE_LENGTH then
    .invalid "Message too long (max 1000 characters)"
  else if user.length > MAX_USERNAME_LENGTH then
    .invalid "Username too long (max 30 characters)"
  else if sanitizeInput lib message ≠ message ∨ sanitizeInput lib user ≠ user then
    .invalid "Invalid characters detected"
  else .ok

/-- `broadcast`: send a frame to every client in the `clients` map.  In the
serialized event model every socket still present in the map has readyState
OPEN (the close and error handlers remove sockets), so the readyState guard of
the source always passes, and `send` is modeled as non-throwing. -/
def broadcast (s : ServerState) (f : Frame) : List Action :=
  s.clients.map (fun c => Action.send c.wsId f)

/-- `broadcastBatch`: package the pending messages into one `message_batch`
frame, preserving their order, and broadcast it; a no-op on an empty list. -/
def broadcastBatch (s : ServerState) (msgs : List Msg) : List Action :=
  if msgs = [] then [] else broadcast s (Frame.messageBatch msgs)

/-- `broadcastConnectionCount`: broadcast the current `clients.size`. -/
def broadcastConnectionCount (s : ServerState) : List Action :=
  broadcast s (Frame.connectionCount s.clients.length)

/-- `persistState`: write the in-memory `messageHistory` to durable storage.
The worker defines this method but no code path ever calls it. -/
def persistState (s : ServerState) : ServerState :=
  { s with storage := s.messageHistory }

/-- The server-side socket object as freshly created by the accept path: none
of the ExtendedWebSocket fields is initialized (`acceptIP` is the ghost
record of the connecting IP, see `Conn`). -/
def newConn (ip wsId : String) : Conn :=
  { wsId := wsId, acceptIP := ip }

/-- The result of `WebSocketHibernationServer.fetch` on an upgrade request:
either a plain HTTP refusal (no `WebSocketPair` or connection object is
created on this path) or a 101 response, with the actions the accept path
performed. -/
inductive FetchResult where
  | refused (status : Nat)
  | accepted (actions : List Action)
  deriving DecidableEq

/-- `WebSocketHibernationServer.fetch` for a request with the websocket
Upgrade header.  `ip` is the `CF-Connecting-IP` header value after the
`|| 'unknown'` default; `wsId` is the fresh server socket's map key
(`server.toString()`).  On refusal the method returns a 429 before
constructing the `WebSocketPair`.  On acceptance it registers the socket,
increments the IP count, sends the new socket a `connection_status` frame
carrying `this.clients.size`, broadcasts the updated connection count, and
starts the health check if it is not yet running. -/
def fetch (ip wsId : String) (s : ServerState) : ServerState × FetchResult :=
  let currentConnections := (mapGet s.ipConnections ip).getD 0
  if currentConnections ≥ MAX_CONNECTIONS_PER_IP then
    (s, .refused 429)
  else
    let s1 : ServerState := { s with
      clients := clientsSet s.clients (newConn ip wsId),
      ipConnections := mapSet s.ipConnections ip (currentConnections + 1) }
    let s2 : ServerState := { s1 with healthCheckInterval := true }
    (s2, .accepted
      (Action.send wsId
          (Frame.connectionStatus "connected"
            "Successfully connected to chat room" s1.clients.length)
        :: broadcastConnectionCount s1))

/-- JavaScript `a || b` on two possibly-undefined strings: the value of `b`
whenever `a` is `undefined` or the empty string. -/
def jsOrString (a b : Option String) : Option String :=
  match a with
  | some sa => if sa = "" then b else some sa
  | none => b

/-- JavaScript falsiness of a possibly-undefined string. -/
def jsFalsy : Option String → Bool
  | none => true
  | some s => s == ""

/-- `webSocketMessage` for one inbound frame, at time `now` (`Date.now()`),
with `msgId` the id the source draws from `Date.now()` and `Math.random`.
`verify` stands for `Auth.verifyToken` with the environment applied and `lib`
for the sanitize-html call.  The `updateRoomActivity` call of the accept path
touches only the external rooms table and is modeled as a no-op on this state.
In the rate-limit branch, the in-place mutation of the map entry during a
window reset is observable only on the accept path (a reset leaves `count = 0`,
which can never be rejected), so the functional translation below is exact. -/
def webSocketMessage (lib : String → String)
    (verify : String → Option AuthResult) (now : Int) (msgId wsId : String)
    (data : InMsg) (s : ServerState) : ServerState × List Action :=
  match data with
  | .binary => (s, [])
  | .malformed => (s, [Action.send wsId (Frame.error "Invalid message format")])
  | .auth tok uid un =>
    match verify tok with
    | none => (s, [Action.send wsId (Frame.error "Invalid authentication")])
    | some a =>
      if a.userId ≠ uid ∨ a.username ≠ un then
        (s, [Action.send wsId (Frame.error "Invalid authentication")])
      else
        let cs := clientsUpdate s.clients wsId
          (fun c => { c with clientIP := some uid })
        ({ s with clients := cs }, [Action.send wsId (Frame.authSuccess un)])
  | .ping =>
    let cs := clientsUpdate s.clients wsId
      (fun c => { c with lastPing := some now })
    ({ s with clients := cs }, [Action.send wsId Frame.pong])
  | .typing user =>
    let s1 := { s with typingUsers := mapSet s.typingUsers user now }
    (s1, broadcast s1 (Frame.typing user))
  | .other => (s, [])
  | .message contentField msgField usernameField userField =>
    let contentO := jsOrString contentField msgField
    let userO := jsOrString usernameField userField
    if jsFalsy contentO ∨ jsFalsy userO then
      (s, [Action.send wsId (Frame.error "Message and user are required")])
    else
      let content := contentO.getD ""
      let user := userO.getD ""
      match validateMessage lib content user with
      | .invalid e => (s, [Action.send wsId (Frame.error e)])
      | .ok =>
        let prev := (mapGet s.userMessageCounts user).getD
          { count := 0, lastReset := now }
        let eff := if now - prev.lastReset > 60000 then
            ({ count := 0, lastReset := now } : RateEntry)
          else prev
        if eff.count ≥ 10 then
          (s, [Action.send wsId (Frame.error "Message rate limit exceeded")])
        else
          ({ s with
              userMessageCounts := mapSet s.userMessageCounts user
                { count := eff.count + 1, lastReset := eff.lastReset },
              messageQueue := s.messageQueue ++
                [{ message := content, user := user, id := msgId,
                   timestamp := now }],
              batchTimeout := true }, [])

/-- The debounce timeout callback armed by the accept path: broadcast the
pending queue as one batch, clear it, and disarm the timer. -/
def flushBatch (s : ServerState) : ServerState × List Action :=
  ({ s with messageQueue := [], batchTimeout := false },
   broadcastBatch s s.messageQueue)

/-- The key `webSocketClose` decrements: `ws.clientIP || 'unknown'`. -/
def ipKeyOf (c : Conn) : String :=
  match c.clientIP with
  | none => "unknown"
  | some s => if s = "" then "unknown" else s

/-- `webSocketClose(ws)`.  The handler receives the socket object itself, so
the model takes the `Conn` value; the `clientIP` field is read from the object
(not from the map, which the first line already deleted it from). -/
def webSocketClose (c : Conn) (s : ServerState) : ServerState × List Action :=
  let s1 := { s with clients := clientsDelete s.clients c.wsId }
  let clientIP := ipKeyOf c
  let currentConnections := (mapGet s1.ipConnections clientIP).getD 0
  let s2 := if currentConnections > 0 then
      { s1 with ipConnections :=
          mapSet s1.ipConnections clientIP (currentConnections - 1) }
    else s1
  (s2, broadcastConnectionCount s2)

/-- `webSocketError(ws)`: removes the socket from the clients map and nothing
else — in particular it touches no IP count. -/
def webSocketError (c : Conn) (s : ServerState) : ServerState :=
  { s with clients := clientsDelete s.clients c.wsId }

/-- `now - lastPing > PONG_TIMEOUT` with JavaScript number semantics: when
`lastPing` is `undefined` the subtraction yields `NaN` and the comparison is
false. -/
def pingOverdue (now : Int) (lastPing : Option Int) : Bool :=
  match lastPing with
  | none => false
  | some lp => now - lp > PONG_TIMEOUT

/-- `retryCount >= MAX_RETRY_ATTEMPTS` with JavaScript number semantics:
`undefined` and `NaN` compare false. -/
def retriesExhausted (retryCount : Option Nat) : Bool :=
  match retryCount with
  | none => false
  | some r => r ≥ MAX_RETRY_ATTEMPTS

/-- `retryCount++` with JavaScript number semantics: incrementing `undefined`
produces `NaN`, which stays non-numeric forever. -/
def jsIncr : Option Nat → Option Nat
  | none => none
  | some r => some (r + 1)

/-- The body of the health-check loop for one socket: on an overdue pong,
either close the socket (retries exhausted) or increment its retry count and
ping it.  Sends are modeled as non-throwing, so the catch-and-close branch
around `ws.send` is unreachable. -/
def healthCheckConn (now : Int) (c : Conn) : Conn × List Action :=
  if pingOverdue now c.lastPing then
    if retriesExhausted c.retryCount then
      (c, [Action.closeSocket c.wsId 1000 "Connection timeout"])
    else
      ({ c with retryCount := jsIncr c.retryCount }, [Action.send c.wsId Frame.ping])
  else (c, [])

/-- One firing of the `setInterval` callback installed by `startHealthCheck`
(every `PING_INTERVAL` ms).  A `close()` call is emitted as an action; the
ensuing `webSocketClose` event is delivered to the actor separately. -/
def healthTick (now : Int) (s : ServerState) : ServerState × List Action :=
  let results := s.clients.map (healthCheckConn now)
  ({ s with clients := results.map (fun r => r.1) },
   (results.map (fun r => r.2)).flatten)

/-- The JWT payload built by `Auth.generateToken`. -/
structure TokenPayload where
  userId : String
  username : String
  iat : Int
  exp : Int
  deriving DecidableEq

/-- JavaScript `String.prototype.split('.')`, on the character list. -/
def splitDotAux : List Char → List Char → List (List Char)
  | [], acc => [acc.reverse]
  | ch :: rest, acc =>
    if ch = '.' then acc.reverse :: splitDotAux rest []
    else splitDotAux rest (ch :: acc)

def jsSplitDot (s : String) : List String :=
  (splitDotAux s.data []).map (fun l => String.mk l)

/-- `Auth.generateToken`.  `encHeader` is the constant
`btoa(JSON.stringify(header))`, `encPayload` is `btoa` composed with
`JSON.stringify` on the payload object, and `sign` is the HMAC-SHA256
signature followed by `btoa`; all three are computed by external libraries and
enter the model as parameters (their outputs are base64 and hence contain no
dot, which theorems take as a hypothesis).  `now` is
`Math.floor(Date.now() / 1000)` at issuance. -/
def generateToken (sign : String → String) (encHeader : String)
    (encPayload : TokenPayload → String) (userId username : String)
    (now : Int) : String :=
  let ep := encPayload
    { userId := userId, username := username, iat := now,
      exp := now + 24 * 60 * 60 }
  encHeader ++ "." ++ ep ++ "." ++ sign (encHeader ++ "." ++ ep)

/-- `Auth.verifyToken`.  `decPayload` is `JSON.parse` composed with `atob`,
with any thrown exception mapped to `none` (the surrounding try/catch returns
null).  When the token has fewer than three dot-separated parts the
destructured `signature` is `undefined` and the strict inequality against the
recomputed string signature always fails, so verification returns null; extra
parts beyond the third are ignored by the destructuring. -/
def verifyToken (sign : String → String)
    (decPayload : String → Option TokenPayload) (token : String)
    (now : Int) : Option AuthResult :=
  match jsSplitDot token with
  | eh :: ep :: sigPart :: _ =>
    if sigPart ≠ sign (eh ++ "." ++ ep) then none
    else
      match decPayload ep with
      | none => none
      | some payload =>
        if payload.exp < now then none
        else some { userId := payload.userId, username := payload.username }
  | _ => none

/-- The inbound data and ambient values (`Date.now()`, generated message id)
of one delivery of `webSocketMessage`. -/
structure MsgEvent where
  wsId : String
  data : InMsg
  now : Int
  msgId : String
  deriving DecidableEq

/-- Sequential processing of a list of inbound frames by the actor (the
serialized event stream: one `webSocketMessage` completes before the next
starts). -/
def runEvents (lib : String → String) (verify : String → Option AuthResult) :
    List MsgEvent → ServerState → ServerState
  | [], s => s
  | e :: es, s =>
    runEvents lib verify es
      (webSocketMessage lib verify e.now e.msgId e.wsId e.data s).1

/-- The run of inbound events starting at `s` accepts, in order, exactly the
messages `ms`: each event either appends one accepted message at the tail of
the pending queue or leaves the queue unchanged (rejected, or a non-message
frame). -/
inductive RunAccepted (lib : String → String)
    (verify : String → Option AuthResult) :
    ServerState → List MsgEvent → List Msg → Prop
  | nil (s : ServerState) : RunAccepted lib verify s [] []
  | consAccept (s : ServerState) (e : MsgEvent) (es : List MsgEvent) (m : Msg)
      (ms : List Msg)
      (hstep : (webSocketMessage lib verify e.now e.msgId e.wsId e.data
          s).1.messageQueue = s.messageQueue ++ [m])
      (hrest : RunAccepted lib verify
        (webSocketMessage lib verify e.now e.msgId e.wsId e.data s).1 es ms) :
      RunAccepted lib verify s (e :: es) (m :: ms)
  | consOther (s : ServerState) (e : MsgEvent) (es : List MsgEvent)
      (ms : List Msg)
      (hstep : (webSocketMessage lib verify e.now e.msgId e.wsId e.data
          s).1.messageQueue = s.messageQueue)
      (hrest : RunAccepted lib verify
        (webSocketMessage lib verify e.now e.msgId e.wsId e.data s).1 es ms) :
      RunAccepted lib verify s (e :: es) ms

/-- The action list performed by an upgrade request, empty for a refusal. -/
def actionsOf : FetchResult → List Action
  | .refused _ => []
  | .accepted acts => acts

/-! Concrete fixtures used by counterexamples and witnesses. -/

/-- A persisted message used by concrete scenarios. -/
def helloMsg : Msg :=
  { message := "hello", user := "alice", id := "m1", timestamp := 5 }

/-- A room whose durable storage and in-memory history already hold one
message. -/
def roomWithHistory : ServerState :=
  { messageHistory := [helloMsg], storage := [helloMsg] }

/-- A room in which alice's rate window, started at time 0, already counts 10
accepted messages. -/
def aliceRoom : ServerState :=
  { userMessageCounts := [("alice", { count := 10, lastReset := 0 })] }

/-- The message the rate limiter accepts for alice at time 70000. -/
def acceptedHeyMsg : Msg :=
  { message := "hey", user := "alice", id := "m2", timestamp := 70000 }

/-- The state the rate limiter produces when alice's elapsed window is reset
and a message is accepted at time 70000. -/
def aliceRoomAfterReset : ServerState :=
  { userMessageCounts := [("alice", { count := 1, lastReset := 70000 })],
    messageQueue := [acceptedHeyMsg],
    batchTimeout := true }

/-- The payload `Auth.generateToken` builds for an identity at issue time
`t0`: the identity plus `iat = t0` and `exp = t0 + 24h`. -/
def payloadOf (uid un : String) (t0 : Int) : TokenPayload :=
  { userId := uid, username := un, iat := t0, exp := t0 + 24 * 60 * 60 }

/-- A room with one attached connection. -/
def roomOneClient : ServerState :=
  { clients := [{ wsId := "w1", acceptIP := "1.2.3.4" }] }

/-- First accepted message event of the batch-order scenario. -/
def evOne : MsgEvent :=
  { wsId := "w1", data := InMsg.message (some "one") none none (some "alice"),
    now := 1000, msgId := "b1" }

/-- A typing event interleaved between the two accepted messages (leaves the
pending queue unchanged). -/
def evTyping : MsgEvent :=
  { wsId := "w1", data := InMsg.typing "bob", now := 1001, msgId := "b2" }

/-- Second accepted message event of the batch-order scenario. -/
def evTwo : MsgEvent :=
  { wsId := "w1", data := InMsg.message (some "two") none none (some "alice"),
    now := 1002, msgId := "b3" }

/-- The message `evOne` is accepted as. -/
def msgOne : Msg :=
  { message := "one", user := "alice", id := "b1", timestamp := 1000 }

/-- The message `evTwo` is accepted as. -/
def msgTwo : Msg :=
  { message := "two", user := "alice", id := "b3", timestamp := 1002 }

/-- The room of the batch-order scenario right before the debounce flush. -/
def roomFlushReady : ServerState :=
  { clients := [{ wsId := "w1", acceptIP := "1.2.3.4" }],
    messageQueue := [msgOne, msgTwo], batchTimeout := true }

/-- A socket whose clientIP field was set (by the auth branch) to a user id
that happens to look like an IP of another host. -/
def closingConn : Conn :=
  { wsId := "w9", acceptIP := "8.8.8.8", clientIP := some "5.5.5.5" }

/-- A room with two counted IPs. -/
def ipRoom : ServerState :=
  { ipConnections := [("5.5.5.5", 2), ("7.7.7.7", 1)] }

/-- A token checker accepting exactly the token "tok1" for user u1/al. -/
def authVerifier : String → Option AuthResult :=
  fun t => if t = "tok1" then some { userId := "u1", username := "al" } else none

/-- The valid token payload of the token-verification witness. -/
def pw7 : TokenPayload :=
  { userId := "u1", username := "alice", iat := 0, exp := 86400 }

/-- An expired token payload of the token-verification witness. -/
def pOld7 : TokenPayload :=
  { userId := "u1", username := "alice", iat := 0, exp := 100 }

/-- A concrete payload decoder used by the token-verification witness. -/
def dec7 : String → Option TokenPayload :=
  fun s => if s = "PAY" then some pw7 else
    if s = "OLD" then some pOld7 else none

/-! Helper lemmas about the JavaScript-Map model. -/

theorem mapGet_cons {α : Type} (p : String × α) (t : List (String × α))
    (k2 : String) :
    mapGet (p :: t) k2 = if p.1 == k2 then some p.2 else mapGet t k2 := by
  unfold mapGet
  by_cases h : p.1 == k2
  · rw [if_pos h]
    simp only [List.find?, h]
    rfl
  · have hf : (p.1 == k2) = false := by simpa using h
    rw [if_neg h]
    simp only [List.find?, hf]

theorem mapGet_mapSet_self {α : Type} (m : List (String × α)) (k : String)
    (v : α) : mapGet (mapSet m k v) k = some v := by
  unfold mapSet
  by_cases h : m.any (fun p => p.1 == k)
  · rw [if_pos h]
    induction m with
    | nil => simp at h
    | cons p t ih =>
      rw [List.any_cons, Bool.or_eq_true] at h
      by_cases hp : p.1 == k
      · simp only [List.map_cons, if_pos hp]
        rw [mapGet_cons]
        simp
      · have ht : t.any (fun q => q.1 == k) = true := by
          rcases h with h | h
          · exact absurd h hp
          · exact h
        simp only [List.map_cons, if_neg hp]
        rw [mapGet_cons, if_neg hp]
        exact ih ht
  · rw [if_neg h]
    induction m with
    | nil =>
      rw [List.nil_append, mapGet_cons]
      simp
    | cons p t ih =>
      rw [List.any_cons, Bool.or_eq_true, not_or] at h
      obtain ⟨h1, h2⟩ := h
      rw [List.cons_append, mapGet_cons, if_neg h1]
      exact ih h2

theorem mapGet_mapSet_ne {α : Type} (m : List (String × α)) (k k2 : String)
    (v : α) (hne : k2 ≠ k) : mapGet (mapSet m k v) k2 = mapGet m k2 := by
  have hkk2 : ¬((k : String) == k2) = true := by
    simp only [beq_iff_eq]
    exact fun e => hne e.symm
  unfold mapSet
  by_cases h : m.any (fun p => p.1 == k)
  · rw [if_pos h]
    clear h
    induction m with
    | nil => simp
    | cons p t ih =>
      by_cases hp : p.1 == k
      · have hpk2 : ¬(p.1 == k2) = true := by
          simp only [beq_iff_eq] at hp ⊢
          rw [hp]
          exact fun e => hne e.symm
        simp only [List.map_cons, if_pos hp]
        rw [mapGet_cons, mapGet_cons, if_neg hpk2]
        rw [if_neg hkk2]
        exact ih
      · simp only [List.map_cons, if_neg hp]
        rw [mapGet_cons, mapGet_cons]
        by_cases hq : p.1 == k2
        · rw [if_pos hq, if_pos hq]
        · rw [if_neg hq, if_neg hq]
          exact ih
  · rw [if_neg h]
    clear h
    induction m with
    | nil =>
      rw [List.nil_append, mapGet_cons, if_neg hkk2]
    | cons p t ih =>
      rw [List.cons_append, mapGet_cons, mapGet_cons]
      by_cases hq : p.1 == k2
      · rw [if_pos hq, if_pos hq]
      · rw [if_neg hq, if_neg hq]
        exact ih

theorem clientsSet_fresh (cs : List Conn) (c : Conn)
    (h : ∀ x ∈ cs, x.wsId ≠ c.wsId) : clientsSet cs c = cs ++ [c] := by
  unfold clientsSet
  rw [if_neg]
  simp only [List.any_eq_true, not_exists, not_and, beq_iff_eq]
  intro x hx
  exact h x hx

/-! Helper lemmas about the character-level model of split('.'). -/

theorem splitDotAux_no_dot (l acc : List Char) (h : '.' ∉ l) :
    splitDotAux l acc = [acc.reverse ++ l] := by
  induction l generalizing acc with
  | nil => simp [splitDotAux]
  | cons ch t ih =>
    have hch : ch ≠ '.' := fun e => h (e ▸ List.mem_cons_self ch t)
    have ht : '.' ∉ t := fun e => h (List.mem_cons_of_mem _ e)
    rw [splitDotAux, if_neg hch, ih _ ht]
    simp

theorem splitDotAux_dot (l rest acc : List Char) (h : '.' ∉ l) :
    splitDotAux (l ++ '.' :: rest) acc
      = (acc.reverse ++ l) :: splitDotAux rest [] := by
  induction l generalizing acc with
  | nil => simp [splitDotAux]
  | cons ch t ih =>
    have hch : ch ≠ '.' := fun e => h (e ▸ List.mem_cons_self ch t)
    have ht : '.' ∉ t := fun e => h (List.mem_cons_of_mem _ e)
    rw [List.cons_append, splitDotAux, if_neg hch, ih _ ht]
    simp

theorem jsSplitDot_three (a b c : String) (ha : '.' ∉ a.data)
    (hb : '.' ∉ b.data) (hc : '.' ∉ c.data) :
    jsSplitDot (a ++ "." ++ b ++ "." ++ c) = [a, b, c] := by
  unfold jsSplitDot
  have hdata : (a ++ "." ++ b ++ "." ++ c).data
      = a.data ++ '.' :: (b.data ++ '.' :: c.data) := by
    simp [String.data_append]
  rw [hdata, splitDotAux_dot _ _ _ ha, splitDotAux_dot _ _ _ hb,
    splitDotAux_no_dot _ _ hc]
  simp

/-! Claim theorems. -/

/-- Claim C10: for every inbound frame that is not a string (a binary frame),
`webSocketMessage` returns immediately: it sends no reply frame and modifies
no room state (queue, history, rate, IP, typing, clients and storage are all
unchanged). -/
theorem C10_binary_frame_ignored (lib : String → String)
    (verify : String → Option AuthResult) (now : Int) (msgId wsId : String)
    (s : ServerState) :
    webSocketMessage lib verify now msgId wsId InMsg.binary s = (s, []) := rfl

/-- Claim C4: a connection attempt from a source IP whose connection-table
count is 20 is refused with a 429 response, before any WebSocketPair or
connection object is created, and the refusal leaves all room state unchanged.
(The cap in the source is `MAX_CONNECTIONS_PER_IP = 5`, so any count of at
least 5 — in particular 20 — is refused.) -/
theorem C4_connection_limit (s : ServerState) (ip wsId : String)
    (h : mapGet s.ipConnections ip = some 20) :
    fetch ip wsId s = (s, FetchResult.refused 429) := by
  unfold fetch
  rw [h]
  rfl

/-- Witness for C4 at a concrete room state with 20 connections counted for
one IP. -/
theorem C4_connection_limit_witness :
    fetch "9.9.9.9" "w1" { ipConnections := [("9.9.9.9", 20)] }
      = ({ ipConnections := [("9.9.9.9", 20)] }, FetchResult.refused 429) :=
  C4_connection_limit { ipConnections := [("9.9.9.9", 20)] } "9.9.9.9" "w1"
    (by decide)

/-- Claim C1 counterexample: a concrete room in which a message accepted by
`webSocketMessage` is delivered in a batch broadcast although it was never
durably stored.  The room accepts a connection, accepts the message "hi" from
alice, and flushes: the flush broadcasts the message, while durable storage is
still empty — the broadcast message was not persisted first, refuting the
persist-before-broadcast invariant. -/
theorem C1_counterexample :
    (flushBatch (webSocketMessage (fun x => x) (fun _ => none) 1000 "msg-1"
        "w1" (InMsg.message (some "hi") none none (some "alice"))
        (fetch "1.2.3.4" "w1" ({} : ServerState)).1).1).2
      = [Action.send "w1" (Frame.messageBatch
          [{ message := "hi", user := "alice", id := "msg-1",
             timestamp := 1000 }])] ∧
    (webSocketMessage (fun x => x) (fun _ => none) 1000 "msg-1" "w1"
        (InMsg.message (some "hi") none none (some "alice"))
        (fetch "1.2.3.4" "w1" ({} : ServerState)).1).1.storage = [] :=
  ⟨by decide, by decide⟩

/-- Claim C1 (amended): message handling never persists anything: every
inbound frame, and the batch flush itself, leaves durable storage unchanged
(`persistState` is never invoked on any message path), so the messages of a
batch broadcast are exactly the accepted queue but are not durably stored
first. -/
theorem C1_amended_no_persist (lib : String → String)
    (verify : String → Option AuthResult) (now : Int) (msgId wsId : String)
    (data : InMsg) (s : ServerState) :
    (webSocketMessage lib verify now msgId wsId data s).1.storage = s.storage ∧
    (flushBatch s).1.storage = s.storage ∧
    (flushBatch s).2 = broadcastBatch s s.messageQueue := by
  refine ⟨?_, rfl, rfl⟩
  cases data <;> simp only [webSocketMessage] <;> (repeat' split) <;> rfl

/-- Claim C2 counterexample: a room accepts one connection from IP 1.2.3.4
(table count becomes 1) and that connection closes before authenticating.
Because `fetch` never stores the source IP on the socket, `webSocketClose`
reads `clientIP` as undefined and decrements the key "unknown" instead; the
resulting state has no live connections at all, yet the table still counts 1
connection for 1.2.3.4 — refuting the invariant that per-IP counts equal the
number of live connections. -/
theorem C2_counterexample :
    (webSocketClose { wsId := "w1", acceptIP := "1.2.3.4" }
        (fetch "1.2.3.4" "w1" ({} : ServerState)).1).1.clients = [] ∧
    mapGet (webSocketClose { wsId := "w1", acceptIP := "1.2.3.4" }
        (fetch "1.2.3.4" "w1" ({} : ServerState)).1).1.ipConnections "1.2.3.4"
      = some 1 :=
  ⟨by decide, by decide⟩

/-- Claim C6 counterexample: a room whose persisted history holds a message
accepts a new connection; the accept path sends exactly a connection_status
frame and the connection_count broadcast — no message_history snapshot frame
is ever sent (the claimed history snapshot of the most recent 100 persisted
messages does not happen; `MAX_HISTORY` is dead code). -/
theorem C6_counterexample :
    (fetch "1.2.3.4" "w1" roomWithHistory).2
      = FetchResult.accepted
          [Action.send "w1" (Frame.connectionStatus "connected"
              "Successfully connected to chat room" 1),
           Action.send "w1" (Frame.connectionCount 1)] := by decide

/-- Claim C8 (code bug): the failing input is a connection accepted from
1.2.3.4 that never sends any frame — in particular never answers a ping.  Its
`lastPing` field is never initialized, so on every health-check tick the age
computation `now - lastPing` is NaN and the overdue comparison is false: the
health check never pings the connection, never increments a retry counter, and
never closes it, at any tick time whatsoever — instead of force-closing it
after 3 unanswered pings and decrementing its IP count as the claim states.
(Two further slips point the same way: `retryCount` is also uninitialized, so
even a set `lastPing` could only ever produce NaN retry counts, and
`webSocketClose` would decrement the key "unknown", not the accept IP.) -/
theorem C8_health_check_never_fires :
    (fetch "1.2.3.4" "w1" ({} : ServerState)).1
      = { clients := [{ wsId := "w1", acceptIP := "1.2.3.4" }],
          ipConnections := [("1.2.3.4", 1)], healthCheckInterval := true } ∧
    ∀ now : Int,
      healthTick now
          { clients := [{ wsId := "w1", acceptIP := "1.2.3.4" }],
            ipConnections := [("1.2.3.4", 1)], healthCheckInterval := true }
        = ({ clients := [{ wsId := "w1", acceptIP := "1.2.3.4" }],
             ipConnections := [("1.2.3.4", 1)],
             healthCheckInterval := true }, []) :=
  ⟨by decide, fun _ => rfl⟩

/-- Claim C9: an inbound message whose content or username changes under
sanitization is rejected with a single validation-error frame to the sender,
is never broadcast, never persisted, and leaves the entire room state
unchanged. -/
theorem C9_sanitization_reject (lib : String → String)
    (verify : String → Option AuthResult) (now : Int) (msgId wsId : String)
    (content user : String) (s : ServerState)
    (hc : content ≠ "") (hu : user ≠ "")
    (hs : sanitizeInput lib content ≠ content ∨
      sanitizeInput lib user ≠ user) :
    (webSocketMessage lib verify now msgId wsId
        (InMsg.message (some content) none none (some user)) s).1 = s ∧
    ∃ e, (webSocketMessage lib verify now msgId wsId
        (InMsg.message (some content) none none (some user)) s).2
      = [Action.send wsId (Frame.error e)] := by
  have hinv : ∃ e, validateMessage lib content user
      = ValidationResult.invalid e := by
    unfold validateMessage
    by_cases h1 : content = "" ∨ user = ""
    · rw [if_pos h1]
      exact ⟨_, rfl⟩
    · rw [if_neg h1]
      by_cases h2 : content.length > MAX_MESSAGE_LENGTH
      · rw [if_pos h2]
        exact ⟨_, rfl⟩
      · rw [if_neg h2]
        by_cases h3 : user.length > MAX_USERNAME_LENGTH
        · rw [if_pos h3]
          exact ⟨_, rfl⟩
        · rw [if_neg h3, if_pos hs]
          exact ⟨_, rfl⟩
  obtain ⟨e, he⟩ := hinv
  have hstep : webSocketMessage lib verify now msgId wsId
      (InMsg.message (some content) none none (some user)) s
      = (s, [Action.send wsId (Frame.error e)]) := by
    simp only [webSocketMessage, jsOrString, if_neg hc, jsFalsy]
    have hcb : (content == "") = false := by simpa using hc
    have hub : (user == "") = false := by simpa using hu
    simp only [hcb, hub, Bool.false_eq_true, or_self, if_false, Option.getD,
      he]
  exact ⟨by rw [hstep], ⟨e, by rw [hstep]⟩⟩

/-- Witness for C9: the message content `<script>alert(1)</script>` under a
sanitizer that strips the markup entirely is rejected with an error frame and
the (empty) room state is unchanged. -/
theorem C9_sanitization_reject_witness :
    (webSocketMessage (fun _ => "") (fun _ => none) 1000 "msg-1" "w1"
        (InMsg.message (some "<script>alert(1)</script>") none none
          (some "alice")) ({} : ServerState)).1 = ({} : ServerState) ∧
    ∃ e, (webSocketMessage (fun _ => "") (fun _ => none) 1000 "msg-1" "w1"
        (InMsg.message (some "<script>alert(1)</script>") none none
          (some "alice")) ({} : ServerState)).2
      = [Action.send "w1" (Frame.error e)] :=
  C9_sanitization_reject (fun _ => "") (fun _ => none) 1000 "msg-1" "w1"
    "<script>alert(1)</script>" "alice" {} (by decide) (by decide)
    (Or.inl (by decide))

/-- Claim C3: for an identity whose stored window holds exactly 10 accepted
messages and has not yet elapsed, the next (11th) valid message is rejected
with the rate-limit error and not enqueued, the state staying unchanged; once
strictly more than 60 seconds have passed since the window start, the counter
resets and the next valid message is accepted (enqueued with a fresh window of
count 1). -/
theorem C3_rate_limit (lib : String → String)
    (verify : String → Option AuthResult) (now t0 : Int)
    (msgId wsId content user : String) (s : ServerState) (c : Nat)
    (hc : content ≠ "") (hu : user ≠ "")
    (hv : validateMessage lib content user = ValidationResult.ok) :
    (mapGet s.userMessageCounts user = some { count := 10, lastReset := t0 } →
      now - t0 ≤ 60000 →
      webSocketMessage lib verify now msgId wsId
          (InMsg.message (some content) none none (some user)) s
        = (s, [Action.send wsId
            (Frame.error "Message rate limit exceeded")])) ∧
    (mapGet s.userMessageCounts user = some { count := c, lastReset := t0 } →
      now - t0 > 60000 →
      webSocketMessage lib verify now msgId wsId
          (InMsg.message (some content) none none (some user)) s
        = ({ s with
              userMessageCounts := mapSet s.userMessageCounts user
                { count := 1, lastReset := now },
              messageQueue := s.messageQueue ++
                [{ message := content, user := user, id := msgId,
                   timestamp := now }],
              batchTimeout := true }, [])) := by
  have hcb : (content == "") = false := by simpa using hc
  have hub : (user == "") = false := by simpa using hu
  constructor
  · intro hmap hwin
    have hw : ¬(now - t0 > 60000) := by omega
    simp only [webSocketMessage, jsOrString, if_neg hc, jsFalsy, hcb, hub,
      Bool.false_eq_true, or_self, if_false, Option.getD, hv, hmap,
      if_neg hw]
    rw [if_pos (by decide)]
  · intro hmap hwin
    simp only [webSocketMessage, jsOrString, if_neg hc, jsFalsy, hcb, hub,
      Bool.false_eq_true, or_self, if_false, Option.getD, hv, hmap,
      if_pos hwin]
    rw [if_neg (by decide)]

/-- Witness for C3: alice has 10 accepted messages with window start 0; at
time 50000 an 11th valid message is rejected and nothing is enqueued; at time
70000 the window has elapsed, so the message is accepted with a fresh counter
of 1. -/
theorem C3_rate_limit_witness :
    webSocketMessage (fun x => x) (fun _ => none) 50000 "m1" "w1"
        (InMsg.message (some "hey") none none (some "alice")) aliceRoom
      = (aliceRoom,
         [Action.send "w1" (Frame.error "Message rate limit exceeded")]) ∧
    webSocketMessage (fun x => x) (fun _ => none) 70000 "m2" "w1"
        (InMsg.message (some "hey") none none (some "alice")) aliceRoom
      = (aliceRoomAfterReset, []) := by
  constructor
  · exact (C3_rate_limit (fun x => x) (fun _ => none) 50000 0 "m1" "w1" "hey"
      "alice" aliceRoom 0 (by decide) (by decide) (by decide)).1
      (by decide) (by decide)
  · have h := (C3_rate_limit (fun x => x) (fun _ => none) 70000 0 "m2" "w1"
      "hey" "alice" aliceRoom 10 (by decide) (by decide) (by decide)).2
      (by decide) (by decide)
    rw [h]
    rfl

/-- Claim C5: the pending batch preserves acceptance order, and the flush
delivers it intact.  If a run of inbound events starting at `s` accepts the
messages `ms` in order (arbitrary rejected or non-message events in between),
the pending queue afterwards is the prior queue extended by exactly `ms` in
that order; and flushing any room with a nonempty queue sends every connection
attached at flush time one message_batch frame holding exactly the queued
messages in queue order, then clears the queue. -/
theorem C5_batch_order (lib : String → String)
    (verify : String → Option AuthResult) (s : ServerState)
    (es : List MsgEvent) (ms : List Msg)
    (h : RunAccepted lib verify s es ms) :
    (runEvents lib verify es s).messageQueue = s.messageQueue ++ ms ∧
    (∀ t : ServerState, t.messageQueue ≠ [] →
      flushBatch t
        = ({ t with messageQueue := [], batchTimeout := false },
           t.clients.map (fun c => Action.send c.wsId
             (Frame.messageBatch t.messageQueue)))) := by
  constructor
  · induction h with
    | nil s => simp [runEvents]
    | consAccept s e es m ms hstep hrest ih =>
      simp only [runEvents]
      rw [ih, hstep]
      simp
    | consOther s e es ms hstep hrest ih =>
      simp only [runEvents]
      rw [ih, hstep]
  · intro t ht
    unfold flushBatch broadcastBatch broadcast
    rw [if_neg ht]

/-- Witness for C5: from a room with one connection and an empty queue, the
run [accept "one", typing, accept "two"] leaves the queue [one, two] in
acceptance order, and flushing the resulting room broadcasts exactly that
batch to the attached connection. -/
theorem C5_batch_order_witness :
    (runEvents (fun x => x) (fun _ => none) [evOne, evTyping, evTwo]
        roomOneClient).messageQueue = [msgOne, msgTwo] ∧
    flushBatch roomFlushReady
      = (roomOneClient,
         [Action.send "w1" (Frame.messageBatch [msgOne, msgTwo])]) := by
  have hrun : RunAccepted (fun x => x) (fun _ => none) roomOneClient
      [evOne, evTyping, evTwo] [msgOne, msgTwo] := by
    refine RunAccepted.consAccept _ _ _ _ _ (by decide) ?_
    refine RunAccepted.consOther _ _ _ _ (by decide) ?_
    refine RunAccepted.consAccept _ _ _ _ _ (by decide) ?_
    exact RunAccepted.nil _
  have h := C5_batch_order (fun x => x) (fun _ => none) roomOneClient
    [evOne, evTyping, evTwo] [msgOne, msgTwo] hrun
  constructor
  · rw [h.1]
    rfl
  · have h2 := h.2 roomFlushReady (by decide)
    rw [h2]
    rfl

/-- Claim C2 (amended): the accept path increments exactly the connecting
IP's table entry, but the close path decrements the entry keyed by the
socket's `clientIP` field — which `fetch` never sets (so it defaults to
"unknown") and which the auth branch overwrites with the authenticated user
id — and the error path decrements nothing.  As a result the table does not
track live connections per source IP (see the counterexample). -/
theorem C2_amended_ip_counts (s : ServerState) (ip wsId : String) (c : Conn)
    (lib : String → String) (verify : String → Option AuthResult) (now : Int)
    (msgId tok uid un : String) :
    ((mapGet s.ipConnections ip).getD 0 < MAX_CONNECTIONS_PER_IP →
      mapGet (fetch ip wsId s).1.ipConnections ip
        = some ((mapGet s.ipConnections ip).getD 0 + 1)) ∧
    (∀ k2 : String, k2 ≠ ip →
      (mapGet s.ipConnections ip).getD 0 < MAX_CONNECTIONS_PER_IP →
      mapGet (fetch ip wsId s).1.ipConnections k2
        = mapGet s.ipConnections k2) ∧
    (∀ k2 : String, k2 ≠ ipKeyOf c →
      mapGet (webSocketClose c s).1.ipConnections k2
        = mapGet s.ipConnections k2) ∧
    (0 < (mapGet s.ipConnections (ipKeyOf c)).getD 0 →
      mapGet (webSocketClose c s).1.ipConnections (ipKeyOf c)
        = some ((mapGet s.ipConnections (ipKeyOf c)).getD 0 - 1)) ∧
    ((mapGet s.ipConnections (ipKeyOf c)).getD 0 = 0 →
      (webSocketClose c s).1.ipConnections = s.ipConnections) ∧
    ((webSocketError c s).ipConnections = s.ipConnections) ∧
    (verify tok = some { userId := uid, username := un } →
      (webSocketMessage lib verify now msgId wsId (InMsg.auth tok uid un)
          s).1.clients
        = clientsUpdate s.clients wsId
            (fun x => { x with clientIP := some uid })) := by
  refine ⟨?_, ?_, ?_, ?_, ?_, rfl, ?_⟩
  · intro hlt
    unfold fetch
    rw [if_neg (by omega)]
    exact mapGet_mapSet_self s.ipConnections ip
      ((mapGet s.ipConnections ip).getD 0 + 1)
  · intro k2 hk2 hlt
    unfold fetch
    rw [if_neg (by omega)]
    exact mapGet_mapSet_ne s.ipConnections ip k2
      ((mapGet s.ipConnections ip).getD 0 + 1) hk2
  · intro k2 hk2
    simp only [webSocketClose]
    by_cases hpos : 0 < (mapGet s.ipConnections (ipKeyOf c)).getD 0
    · rw [if_pos hpos]
      exact mapGet_mapSet_ne s.ipConnections (ipKeyOf c) k2
        ((mapGet s.ipConnections (ipKeyOf c)).getD 0 - 1) hk2
    · rw [if_neg hpos]
  · intro hpos
    simp only [webSocketClose]
    rw [if_pos hpos]
    exact mapGet_mapSet_self s.ipConnections (ipKeyOf c)
      ((mapGet s.ipConnections (ipKeyOf c)).getD 0 - 1)
  · intro hzero
    simp only [webSocketClose]
    rw [if_neg (by omega)]
  · intro hv
    simp only [webSocketMessage, hv]
    rw [if_neg (by simp)]

/-- Witness for C2 (amended), on a room counting two IPs and a socket whose
clientIP field reads "5.5.5.5": the accept increments only the connecting IP,
the close decrements only the clientIP-keyed entry (or nothing when that
entry is absent), the error path changes no entry, and a successful auth
stores the user id in the clientIP field. -/
theorem C2_amended_ip_counts_witness :
    mapGet (fetch "7.7.7.7" "wNew" ipRoom).1.ipConnections "7.7.7.7"
      = some 2 ∧
    mapGet (fetch "7.7.7.7" "wNew" ipRoom).1.ipConnections "5.5.5.5"
      = some 2 ∧
    mapGet (webSocketClose closingConn ipRoom).1.ipConnections "7.7.7.7"
      = some 1 ∧
    mapGet (webSocketClose closingConn ipRoom).1.ipConnections "5.5.5.5"
      = some 1 ∧
    (webSocketClose closingConn ({} : ServerState)).1.ipConnections = [] ∧
    (webSocketError closingConn ipRoom).ipConnections = ipRoom.ipConnections ∧
    (webSocketMessage (fun x => x) authVerifier 0 "m" "w1"
        (InMsg.auth "tok1" "u1" "al") roomOneClient).1.clients
      = clientsUpdate roomOneClient.clients "w1"
          (fun x => { x with clientIP := some "u1" }) := by
  have h := C2_amended_ip_counts ipRoom "7.7.7.7" "wNew" closingConn
    (fun x => x) authVerifier 0 "m" "tok1" "u1" "al"
  have h0 := C2_amended_ip_counts ({} : ServerState) "7.7.7.7" "wNew"
    closingConn (fun x => x) authVerifier 0 "m" "tok1" "u1" "al"
  have hA := C2_amended_ip_counts roomOneClient "9.9.9.9" "w1" closingConn
    (fun x => x) authVerifier 0 "m" "tok1" "u1" "al"
  refine ⟨h.1 (by decide), h.2.1 "5.5.5.5" (by decide) (by decide),
    h.2.2.1 "7.7.7.7" (by decide), h.2.2.2.1 (by decide),
    h0.2.2.2.2.1 (by decide), h.2.2.2.2.2.1, hA.2.2.2.2.2.2 (by decide)⟩

/-- Claim C6 (amended): an admitted connection is registered, its IP count is
incremented, it is sent a connection-status frame carrying the current
live-connection count, and the updated count is broadcast to all connections
— but no history snapshot of persisted messages is sent (no message_history
frame appears among the accept path's actions; `MAX_HISTORY` is unused). -/
theorem C6_accept_behavior (s : ServerState) (ip wsId : String)
    (hcap : (mapGet s.ipConnections ip).getD 0 < MAX_CONNECTIONS_PER_IP)
    (hfresh : ∀ x ∈ s.clients, x.wsId ≠ wsId) :
    (fetch ip wsId s).1
      = { s with
          clients := s.clients ++ [newConn ip wsId],
          ipConnections := mapSet s.ipConnections ip
            ((mapGet s.ipConnections ip).getD 0 + 1),
          healthCheckInterval := true } ∧
    (fetch ip wsId s).2
      = FetchResult.accepted
          (Action.send wsId (Frame.connectionStatus "connected"
              "Successfully connected to chat room" (s.clients.length + 1))
            :: (s.clients ++ [newConn ip wsId]).map
                (fun x => Action.send x.wsId
                  (Frame.connectionCount (s.clients.length + 1)))) ∧
    (∀ target ms, Action.send target (Frame.messageHistory ms)
      ∉ actionsOf (fetch ip wsId s).2) := by
  have hset : clientsSet s.clients (newConn ip wsId)
      = s.clients ++ [newConn ip wsId] :=
    clientsSet_fresh s.clients (newConn ip wsId) hfresh
  have hone : (fetch ip wsId s).1
      = { s with
          clients := s.clients ++ [newConn ip wsId],
          ipConnections := mapSet s.ipConnections ip
            ((mapGet s.ipConnections ip).getD 0 + 1),
          healthCheckInterval := true } := by
    unfold fetch
    rw [if_neg (by omega)]
    simp only [hset]
  have htwo : (fetch ip wsId s).2
      = FetchResult.accepted
          (Action.send wsId (Frame.connectionStatus "connected"
              "Successfully connected to chat room" (s.clients.length + 1))
            :: (s.clients ++ [newConn ip wsId]).map
                (fun x => Action.send x.wsId
                  (Frame.connectionCount (s.clients.length + 1)))) := by
    unfold fetch
    rw [if_neg (by omega)]
    simp only [broadcastConnectionCount, broadcast, hset,
      List.length_append, List.length_singleton]
  refine ⟨hone, htwo, ?_⟩
  intro target ms
  rw [htwo]
  simp [actionsOf]

/-- Witness for C6 (amended): a fresh connection from 1.2.3.4 to the room
whose history holds one persisted message is registered and greeted with the
connection-status frame and the count broadcast, and no message_history frame
(in particular not one carrying the stored message) is sent. -/
theorem C6_accept_behavior_witness :
    (fetch "1.2.3.4" "w1" roomWithHistory).1
      = { roomWithHistory with
          clients := [{ wsId := "w1", acceptIP := "1.2.3.4" }],
          ipConnections := [("1.2.3.4", 1)],
          healthCheckInterval := true } ∧
    (fetch "1.2.3.4" "w1" roomWithHistory).2
      = FetchResult.accepted
          [Action.send "w1" (Frame.connectionStatus "connected"
              "Successfully connected to chat room" 1),
           Action.send "w1" (Frame.connectionCount 1)] ∧
    Action.send "w1" (Frame.messageHistory [helloMsg])
      ∉ actionsOf (fetch "1.2.3.4" "w1" roomWithHistory).2 := by
  have h := C6_accept_behavior roomWithHistory "1.2.3.4" "w1" (by decide)
    (by decide)
  exact ⟨h.1, h.2.1, h.2.2 "w1" [helloMsg]⟩

/-- Claim C7: verifying a token generated for an identity at any time strictly
less than 24 hours after issuance returns exactly that userId and username
(under the base64/JSON round trip of the external encoder: the encoded header,
payload and signature are dot-free base64 and the payload decodes back to
itself), and verification returns null for every token that carries a correct
signature but an elapsed expiry, for every token whose signature does not
match the one recomputed over its header and payload, and for every token
whose payload fails to decode or that does not even split into three
dot-separated parts. -/
theorem C7_token_verification (sign : String → String) (encHeader : String)
    (encPayload : TokenPayload → String)
    (decPayload : String → Option TokenPayload) (uid un : String) (t0 t : Int)
    (ha : '.' ∉ encHeader.data)
    (hb : '.' ∉ (encPayload (payloadOf uid un t0)).data)
    (hsig : '.' ∉ (sign (encHeader ++ "." ++
      encPayload (payloadOf uid un t0))).data)
    (hrt : decPayload (encPayload (payloadOf uid un t0))
      = some (payloadOf uid un t0))
    (ht : t < t0 + 24 * 60 * 60) :
    verifyToken sign decPayload
        (generateToken sign encHeader encPayload uid un t0) t
      = some { userId := uid, username := un } ∧
    (∀ token eh ep sg rest p2, jsSplitDot token = eh :: ep :: sg :: rest →
      sg = sign (eh ++ "." ++ ep) → decPayload ep = some p2 → p2.exp < t →
      verifyToken sign decPayload token t = none) ∧
    (∀ token eh ep sg rest, jsSplitDot token = eh :: ep :: sg :: rest →
      sg ≠ sign (eh ++ "." ++ ep) →
      verifyToken sign decPayload token t = none) ∧
    (∀ token eh ep sg rest, jsSplitDot token = eh :: ep :: sg :: rest →
      decPayload ep = none →
      verifyToken sign decPayload token t = none) ∧
    (∀ token, (jsSplitDot token).length < 3 →
      verifyToken sign decPayload token t = none) := by
  refine ⟨?_, ?_, ?_, ?_, ?_⟩
  · have hsplit : jsSplitDot (generateToken sign encHeader encPayload uid un
        t0) = [encHeader, encPayload (payloadOf uid un t0),
          sign (encHeader ++ "." ++ encPayload (payloadOf uid un t0))] :=
      jsSplitDot_three _ _ _ ha hb hsig
    have hexp : ¬((payloadOf uid un t0).exp < t) := by
      show ¬(t0 + 24 * 60 * 60 < t)
      omega
    unfold verifyToken
    rw [hsplit]
    dsimp only
    rw [if_neg (fun hne => hne rfl), hrt]
    dsimp only
    rw [if_neg hexp]
    rfl
  · intro token eh ep sg rest p2 hsp hsg hdec hex
    unfold verifyToken
    rw [hsp]
    dsimp only
    rw [if_neg (fun hne => hne hsg), hdec]
    dsimp only
    rw [if_pos hex]
  · intro token eh ep sg rest hsp hsg
    unfold verifyToken
    rw [hsp]
    dsimp only
    rw [if_pos hsg]
  · intro token eh ep sg rest hsp hdec
    unfold verifyToken
    rw [hsp]
    dsimp only
    by_cases hsg : sg ≠ sign (eh ++ "." ++ ep)
    · rw [if_pos hsg]
    · rw [if_neg hsg, hdec]
  · intro token hlen
    unfold verifyToken
    rcases hsp : jsSplitDot token with _ | ⟨eh, _ | ⟨ep, _ | ⟨sg, rest⟩⟩⟩
    · rfl
    · rfl
    · rfl
    · rw [hsp] at hlen
      simp at hlen
      omega

/-- Witness for C7 with concrete (degenerate but round-tripping) encoder,
decoder and signer: the generated token for u1/alice issued at 0 verifies at
86399; an expired payload, a tampered signature, an undecodable payload and a
token without three parts all verify to null. -/
theorem C7_token_verification_witness :
    verifyToken (fun _ => "SIG") dec7
        (generateToken (fun _ => "SIG") "HEAD" (fun _ => "PAY") "u1" "alice"
          0) 86399
      = some { userId := "u1", username := "alice" } ∧
    verifyToken (fun _ => "SIG") dec7 "HEAD.OLD.SIG" 86399 = none ∧
    verifyToken (fun _ => "SIG") dec7 "HEAD.PAY.BAD" 86399 = none ∧
    verifyToken (fun _ => "SIG") dec7 "HEAD.ZZZ.SIG" 86399 = none ∧
    verifyToken (fun _ => "SIG") dec7 "HEADPAY" 86399 = none := by
  have h := C7_token_verification (fun _ => "SIG") "HEAD" (fun _ => "PAY")
    dec7 "u1" "alice" 0 86399 (by decide) (by decide) (by decide) (by decide)
    (by decide)
  refine ⟨h.1, ?_, ?_, ?_, ?_⟩
  · exact h.2.1 "HEAD.OLD.SIG" "HEAD" "OLD" "SIG" [] pOld7 (by decide)
      (by decide) (by decide) (by decide)
  · exact h.2.2.1 "HEAD.PAY.BAD" "HEAD" "PAY" "BAD" [] (by decide) (by decide)
  · exact h.2.2.2.1 "HEAD.ZZZ.SIG" "HEAD" "ZZZ" "SIG" [] (by decide)
      (by decide)
  · exact h.2.2.2.2 "HEADPAY" (by decide)

end Chat
